import Mathlib

/-!
Shallow embedding of the supervision core of the repository: the modules
supervisors/error_handler.py, supervisors/logging_system.py and
supervisors/supervisor_agent.py.  Time is modelled as whole seconds (Nat);
Python dictionaries are modelled as insertion-ordered association lists;
the outcomes of external effects (the remote sink, the backup file, the
registered recovery procedures, the pluggable recovery hook) are passed in
as explicit parameters.  Exceptions are modelled with Except, and a Python
try/except block becomes a match on the Except value.
-/

/-- Insertion-ordered dictionary update, mirroring assignment into a Python
dict: it replaces the value in place when the key is present and otherwise
appends the new binding at the end. -/
def dictSet {α : Type} (l : List (String × α)) (k : String) (v : α) : List (String × α) :=
  match l with
  | [] => [(k, v)]
  | (k0, v0) :: rest => if k0 == k then (k, v) :: rest else (k0, v0) :: dictSet rest k v

/-- Python dict.get with a default value. -/
def dictGetD {α : Type} (l : List (String × α)) (k : String) (d : α) : α :=
  match l.lookup k with
  | some v => v
  | none => d

/-- Containment of one character list inside another: the pattern is a
prefix of the list or is contained in its tail. -/
def charsContain (l pat : List Char) : Bool :=
  match l with
  | [] => pat.isEmpty
  | _ :: rest => pat.isPrefixOf l || charsContain rest pat

/-- The characters of a string lowered one by one, mirroring the Python
lower method. -/
def lowerChars (s : String) : List Char :=
  s.toList.map Char.toLower

/-- Case-insensitive substring containment, mirroring the Python membership
test of a pattern inside the lowered string. -/
def containsSubstr (s pat : String) : Bool :=
  charsContain (lowerChars s) pat.toList

namespace ErrorHandler

/-- Outcome of one invocation of a registered recovery procedure: it may
return a truthy success value, return a falsy value, or raise an
exception. -/
inductive ProcResult : Type
  | success
  | failure
  | raises
deriving Repr, DecidableEq

/-- A registered recovery procedure, abstracted as its observable outcome
at each invocation time. -/
def RecProc : Type := Nat → ProcResult

/-- Observable effects emitted while handling one reported error, listed in
program order. -/
inductive Event : Type
  | logged
  | set_last_recovery (kind : String) (t : Nat)
  | invoke_procedure (kind : String)
  | recovery_success (kind : String)
  | recovery_failed (kind : String)
  | escalate
  | spike_detected (kind : String) (count : Nat)
deriving Repr, DecidableEq

/-- The mutable state of the ErrorHandler singleton: error_counts,
active_recoveries and recovery_procedures. -/
structure HandlerState : Type where
  error_counts : List (String × Nat)
  active_recoveries : List (String × Nat)
  recovery_procedures : List (String × RecProc)

/-- The error_thresholds dict initialized in the constructor. -/
def error_thresholds : List (String × Nat) :=
  [("critical", 1), ("error", 5), ("warning", 10)]

/-- The severity threshold chosen by ErrorHandler._should_escalate from the
substring classification of the error kind. -/
def threshold_for (error_type : String) : Nat :=
  if containsSubstr error_type "critical" then dictGetD error_thresholds "critical" 0
  else if containsSubstr error_type "error" then dictGetD error_thresholds "error" 0
  else dictGetD error_thresholds "warning" 0

/-- ErrorHandler._should_escalate: compare the current per-kind count with
the severity threshold. -/
def should_escalate (error_type : String) (s : HandlerState) : Bool :=
  dictGetD s.error_counts error_type 0 ≥ threshold_for error_type

/-- ErrorHandler._should_attempt_recovery.  The cooldown comparison uses
truncated Nat subtraction; when now is earlier than the recorded attempt
this agrees with the Python code, since a negative elapsed time is below
the 300 second cooldown either way. -/
def should_attempt_recovery (now : Nat) (error_type : String) (s : HandlerState) : Bool :=
  if (s.recovery_procedures.lookup error_type).isNone then false
  else
    match s.active_recoveries.lookup error_type with
    | some last_recovery => if now - last_recovery < 300 then false else true
    | none => true

/-- ErrorHandler._attempt_recovery without its try/except: a raising
procedure propagates as Except.error, carrying the state and the events
already emitted at the raise point (the timestamp was recorded and the
procedure was invoked before the raise). -/
def attempt_recovery_run (now : Nat) (error_type : String) (s : HandlerState) :
    Except (HandlerState × List Event) (Bool × HandlerState × List Event) :=
  match s.recovery_procedures.lookup error_type with
  | some p =>
      let s2 : HandlerState :=
        { s with active_recoveries := dictSet s.active_recoveries error_type now }
      let evs := [Event.set_last_recovery error_type now, Event.invoke_procedure error_type]
      match p now with
      | ProcResult.success =>
          Except.ok (true, { s2 with error_counts := dictSet s2.error_counts error_type 0 },
            evs ++ [Event.recovery_success error_type])
      | ProcResult.failure =>
          Except.ok (false, s2, evs ++ [Event.recovery_failed error_type])
      | ProcResult.raises => Except.error (s2, evs)
  | none => Except.ok (false, s, [])

/-- ErrorHandler._attempt_recovery: the surrounding try/except turns a
raise inside the procedure into a plain False result. -/
def attempt_recovery (now : Nat) (error_type : String) (s : HandlerState) :
    Bool × HandlerState × List Event :=
  match attempt_recovery_run now error_type s with
  | Except.ok r => r
  | Except.error (s2, evs) => (false, s2, evs)

/-- The count increment performed by ErrorHandler.handle_error before the
recovery and escalation checks. -/
def increment_count (error_type : String) (s : HandlerState) : HandlerState :=
  { s with error_counts :=
      dictSet s.error_counts error_type (dictGetD s.error_counts error_type 0 + 1) }

/-- Body of ErrorHandler.handle_error: log the error, increment the
per-kind count, attempt recovery when eligible and return its result,
otherwise evaluate escalation. -/
def handle_error (now : Nat) (error_type : String) (s : HandlerState) :
    Bool × HandlerState × List Event :=
  let s1 := increment_count error_type s
  if should_attempt_recovery now error_type s1 then
    let r := attempt_recovery now error_type s1
    (r.1, r.2.1, Event.logged :: r.2.2)
  else if should_escalate error_type s1 then (true, s1, [Event.logged, Event.escalate])
  else (true, s1, [Event.logged])

/-- ErrorHandler.handle_error without its outermost try/except.  The only
operation inside the body whose raise is not already absorbed by an inner
handler is the initial logging call, modelled by the log_fault flag; the
raise carries the state at the raise point, which precedes the count
increment. -/
def handle_error_run (log_fault : Bool) (now : Nat) (error_type : String) (s : HandlerState) :
    Except HandlerState (Bool × HandlerState × List Event) :=
  if log_fault then Except.error s else Except.ok (handle_error now error_type s)

/-- ErrorHandler.handle_error as seen by its caller: the outermost
try/except catches any internal raise, logs it and returns False. -/
def report_error (log_fault : Bool) (now : Nat) (error_type : String) (s : HandlerState) :
    Bool × HandlerState × List Event :=
  match handle_error_run log_fault now error_type s with
  | Except.ok r => r
  | Except.error s2 => (false, s2, [])

/-- ErrorHandler.register_recovery_procedure: the last registration for a
kind wins. -/
def register_recovery_procedure (error_type : String) (p : RecProc) (s : HandlerState) :
    HandlerState :=
  { s with recovery_procedures := dictSet s.recovery_procedures error_type p }

/-- ErrorHandler._detect_error_spike: the thresholds dict is keyed by
severity names, so an ordinary kind string falls back to the default 10. -/
def detect_error_spike (error_type : String) (count : Nat) : Bool :=
  count ≥ dictGetD error_thresholds error_type 10

/-- Marks the events a monitor iteration may emit. -/
def is_spike_event : Event → Bool
  | Event.spike_detected _ _ => true
  | _ => false

/-- One iteration of the ErrorHandler.monitor_error_patterns loop: scan the
counts for spikes, then clear every per-kind count when the local wall
clock reads hour 0, minute 0. -/
def monitor_error_patterns_iteration (hour minute : Nat) (s : HandlerState) :
    HandlerState × List Event :=
  let spikes := s.error_counts.foldl
    (fun acc p =>
      if p.2 > 0 && detect_error_spike p.1 p.2 then acc ++ [Event.spike_detected p.1 p.2]
      else acc) []
  let s2 := if hour == 0 && minute == 0 then { s with error_counts := [] } else s
  (s2, spikes)

end ErrorHandler

namespace LoggingSystem

/-- Configured buffer size of the publisher. -/
def buffer_size : Nat := 100

/-- Configured flush interval of the periodic timer, in seconds. -/
def flush_interval : Nat := 60

/-- Configured rotation size limit, in bytes. -/
def max_log_size : Nat := 10 * 1024 * 1024

/-- Configured number of numbered backups kept by rotation. -/
def backup_count : Nat := 5

/-- One structured record as built by LoggingSystem.log; host and
environment come from MONITORING_CONFIG lookups, whose keys are absent in
settings.py, so the defaults apply. -/
structure LogEntry : Type where
  timestamp : Nat
  level : String
  message : String
  context : List (String × String)
  host : String
  environment : String
deriving Repr, DecidableEq

/-- Observable effects of the publisher. -/
inductive LEvent : Type
  | bulk_write (n : Nat)
  | backup_write (n : Nat)
  | closed_connection
deriving Repr, DecidableEq

/-- State of the LoggingSystem singleton: the in-memory buffer, the
contents of the local backup file (one serialized record per line), the
records accepted by the remote sink, and whether the sink connection is
open. -/
structure SState : Type where
  log_buffer : List LogEntry
  backup_file : List LogEntry
  sink : List LogEntry
  es_connected : Bool
deriving Repr, DecidableEq

/-- LoggingSystem._write_to_backup_file: append each record on its own
line; an IO failure inside is caught and logged, leaving the file
unchanged. -/
def write_to_backup_file (backup_ok : Bool) (logs : List LogEntry) (st : SState) :
    SState × List LEvent :=
  if backup_ok then
    ({ st with backup_file := st.backup_file ++ logs }, [LEvent.backup_write logs.length])
  else (st, [])

/-- LoggingSystem._flush_buffer: an empty buffer returns immediately; a
bulk write to the sink clears the buffer on success; on a sink failure the
whole batch is handed to the backup file and the buffer is cleared as
well. -/
def flush_buffer (sink_ok backup_ok : Bool) (st : SState) : SState × List LEvent :=
  if st.log_buffer.isEmpty then (st, [])
  else if sink_ok then
    ({ st with sink := st.sink ++ st.log_buffer, log_buffer := [] },
     [LEvent.bulk_write st.log_buffer.length])
  else
    let r := write_to_backup_file backup_ok st.log_buffer st
    ({ r.1 with log_buffer := [] }, r.2)

/-- The record constructed at the top of LoggingSystem.log; the level is
uppercased character by character, mirroring the Python upper method. -/
def mk_log_entry (now : Nat) (level message : String) (context : List (String × String)) :
    LogEntry :=
  { timestamp := now, level := String.mk (level.toList.map Char.toUpper), message := message,
    context := context, host := "unknown", environment := "development" }

/-- LoggingSystem.log: build the record, append it to the buffer, and flush
when the buffer has reached the configured size. -/
def log (now : Nat) (level message : String) (context : List (String × String))
    (sink_ok backup_ok : Bool) (st : SState) : SState × List LEvent :=
  let st1 : SState :=
    { st with log_buffer := st.log_buffer ++ [mk_log_entry now level message context] }
  if st1.log_buffer.length ≥ buffer_size then flush_buffer sink_ok backup_ok st1 else (st1, [])

/-- One iteration of the LoggingSystem._process_log_buffer loop after its
sleep: flush the buffer. -/
def process_log_buffer_iteration (sink_ok backup_ok : Bool) (st : SState) :
    SState × List LEvent :=
  flush_buffer sink_ok backup_ok st

/-- The guard of the while loop in LoggingSystem._process_log_buffer: the
loop runs unconditionally and consults no shutdown signal. -/
def process_log_buffer_continues (_st : SState) : Bool := true

/-- External stimuli of the publisher: a worker publishing one record, or
the periodic flush timer firing. -/
inductive LOp : Type
  | publish (now : Nat) (level message : String) (context : List (String × String))
      (sink_ok backup_ok : Bool)
  | timer (sink_ok backup_ok : Bool)

/-- State transition of the publisher under one stimulus. -/
def lstep (st : SState) : LOp → SState
  | LOp.publish now level message context so bo => (log now level message context so bo st).1
  | LOp.timer so bo => (process_log_buffer_iteration so bo st).1

/-- State of the publisher after a sequence of stimuli. -/
def lrun (st : SState) (ops : List LOp) : SState := ops.foldl lstep st

/-- LoggingSystem.shutdown: flush any remaining records, then close the
sink connection. -/
def shutdown (sink_ok backup_ok : Bool) (st : SState) : SState × List LEvent :=
  let r := flush_buffer sink_ok backup_ok st
  ({ r.1 with es_connected := false }, r.2 ++ [LEvent.closed_connection])

/-- The file system visible to log rotation: a map from path to file
content. -/
abbrev FS : Type := List (String × String)

/-- Content of a path, when the file exists. -/
def fsLookup (fs : FS) (n : String) : Option String := fs.lookup n

/-- Path.rename: an existing destination is replaced (POSIX semantics); a
missing source leaves the file system unchanged (the callers guard on
existence). -/
def fsRename (fs : FS) (src dst : String) : FS :=
  match fs.lookup src with
  | some c => dictSet (fs.filter (fun p => !(p.1 == src))) dst c
  | none => fs

/-- Path.touch: creates an empty file when none exists and otherwise leaves
the content alone. -/
def fsTouch (fs : FS) (n : String) : FS :=
  match fs.lookup n with
  | some _ => fs
  | none => dictSet fs n ""

/-- The path produced by with_suffix on a path ending in .log: backup
number i of file f lives at f.i. -/
def backup_name (log_file : String) (i : Nat) : String :=
  log_file ++ "." ++ toString i

/-- LoggingSystem._rotate_log_file: shift the numbered backups up by one,
from the highest kept index down to 1, move the current file to .log.1 and
create a fresh empty current file. -/
def rotate_log_file (log_file : String) (fs : FS) : FS :=
  let fs1 := (((List.range (backup_count - 1)).map (fun j => j + 1)).reverse).foldl
    (fun acc i =>
      if (fsLookup acc (backup_name log_file i)).isSome then
        fsRename acc (backup_name log_file i) (backup_name log_file (i + 1))
      else acc) fs
  let fs2 :=
    if (fsLookup fs1 log_file).isSome then fsRename fs1 log_file (backup_name log_file 1)
    else fs1
  fsTouch fs2 log_file

/-- One check of the LoggingSystem._monitor_log_files loop for a single
file whose on-disk size is st_size: rotate when the size exceeds the
limit. -/
def monitor_log_file_step (log_file : String) (st_size : Nat) (fs : FS) : FS :=
  if st_size > max_log_size then rotate_log_file log_file fs else fs

end LoggingSystem

namespace SupervisorAgent

/-- One row of the agent_health table. -/
structure AgentHealth : Type where
  status : String
  last_heartbeat : Option Nat
  error_count : Nat
deriving Repr, DecidableEq

/-- Observable effects of the health monitor. -/
inductive SEvent : Type
  | agent_failure (name : String)
  | recovery_attempt (name : String)
  | issue_escalation (component : String) (issue : String)
  | health_metric (name : String) (value : Nat)
deriving Repr, DecidableEq

/-- SupervisorAgent._recover_agent: logs the attempt and returns True; the
hook_ok parameter models an exception inside the placeholder body, which
the surrounding try/except catches, yielding False. -/
def recover_agent (hook_ok : Bool) (name : String) : Bool × List SEvent :=
  if hook_ok then (true, [SEvent.recovery_attempt name])
  else (false, [SEvent.recovery_attempt name])

/-- SupervisorAgent._handle_agent_failure: log the failure, attempt
recovery, escalate when recovery fails.  No field of the health table row
is modified. -/
def handle_agent_failure (hook_ok : Bool) (name : String) : List SEvent :=
  let r := recover_agent hook_ok name
  SEvent.agent_failure name ::
    (r.2 ++ (if r.1 then [] else [SEvent.issue_escalation name "recovery_failed"]))

/-- The Python timedelta attribute named seconds: the seconds component of
the elapsed time, that is the total elapsed seconds modulo one day. -/
def elapsed_seconds_component (now t : Nat) : Nat := (now - t) % 86400

/-- Processing of one agent inside the body of the
SupervisorAgent._monitor_agent_health loop: handle a failure when a
heartbeat was recorded and its seconds component exceeds 60, then log the
health metric for the agent. -/
def check_agent (now : Nat) (hook_ok : String → Bool) (p : String × AgentHealth) :
    List SEvent :=
  let fail_events :=
    match p.2.last_heartbeat with
    | some t =>
        if elapsed_seconds_component now t > 60 then handle_agent_failure (hook_ok p.1) p.1
        else []
    | none => []
  fail_events ++ [SEvent.health_metric p.1 (if p.2.status == "active" then 1 else 0)]

/-- Events of one health-monitor iteration, agent by agent in table
order. -/
def monitor_events (now : Nat) (hook_ok : String → Bool) :
    List (String × AgentHealth) → List SEvent
  | [] => []
  | p :: rest => check_agent now hook_ok p ++ monitor_events now hook_ok rest

/-- One iteration of SupervisorAgent._monitor_agent_health: every known
agent is checked once; the loop body contains no write to the health table,
so the table is returned unchanged. -/
def monitor_agent_health_iteration (now : Nat) (hook_ok : String → Bool)
    (agents : List (String × AgentHealth)) : List (String × AgentHealth) × List SEvent :=
  (agents, monitor_events now hook_ok agents)

/-- Number of failure-handling invocations for a given agent name in an
event list. -/
def count_failures (name : String) : List SEvent → Nat
  | [] => 0
  | SEvent.agent_failure n :: rest =>
      (if n == name then 1 else 0) + count_failures name rest
  | _ :: rest => count_failures name rest

end SupervisorAgent

/-- Concrete handler state: a procedure registered for DBError, no prior
errors and no prior recovery attempts. -/
def c1state : ErrorHandler.HandlerState :=
  ⟨[], [], [("DBError", fun _ => ErrorHandler.ProcResult.success)]⟩

/-- Concrete handler state: four prior ValueError occurrences and no
registered procedures. -/
def c2state : ErrorHandler.HandlerState := ⟨[("ValueError", 4)], [], []⟩

/-- Concrete handler state: one prior NetError occurrence and a registered
procedure that raises. -/
def c3state : ErrorHandler.HandlerState :=
  ⟨[("NetError", 1)], [], [("NetError", fun _ => ErrorHandler.ProcResult.raises)]⟩

/-- Concrete handler state with nothing registered and nothing counted. -/
def c4state : ErrorHandler.HandlerState := ⟨[], [], []⟩

/-- A concrete log record. -/
def sample_entry : LoggingSystem.LogEntry := LoggingSystem.mk_log_entry 0 "info" "boot" []

/-- Concrete publisher state holding one buffered record. -/
def c5state : LoggingSystem.SState := ⟨[sample_entry], [], [], true⟩

/-- Concrete publisher state holding ninety-nine buffered records. -/
def c6state : LoggingSystem.SState := ⟨List.replicate 99 sample_entry, [], [], true⟩

/-- Concrete publisher state holding one buffered record, for the shutdown
claim. -/
def c9state : LoggingSystem.SState := ⟨[sample_entry], [], [], true⟩

/-- Concrete file system: a current log file and five numbered backups. -/
def c8fs : LoggingSystem.FS :=
  [("app.log", "cur"), ("app.log.1", "b1"), ("app.log.2", "b2"), ("app.log.3", "b3"),
   ("app.log.4", "b4"), ("app.log.5", "b5")]

/-- Concrete health table: one agent with a recorded heartbeat at time 0
and status active. -/
def c7agents : List (String × SupervisorAgent.AgentHealth) :=
  [("validation", ⟨"active", some 0, 0⟩)]

open ErrorHandler LoggingSystem SupervisorAgent

theorem lookup_dictSet_self {α : Type} (l : List (String × α)) (k : String) (v : α) :
    (dictSet l k v).lookup k = some v := by
  induction l with
  | nil => simp [dictSet]
  | cons hd tl ih =>
    obtain ⟨k0, v0⟩ := hd
    by_cases h : k0 = k
    · subst h
      simp [dictSet]
    · have hb : (k == k0) = false := by simp [Ne.symm h]
      simp [dictSet, h, List.lookup, hb, ih]

theorem lookup_dictSet_ne {α : Type} (l : List (String × α)) (k k' : String) (v : α)
    (h : k' ≠ k) : (dictSet l k v).lookup k' = l.lookup k' := by
  have hb : (k' == k) = false := by simp [h]
  induction l with
  | nil => simp [dictSet, List.lookup, hb]
  | cons hd tl ih =>
    obtain ⟨k0, v0⟩ := hd
    by_cases h0 : k0 = k
    · subst h0
      simp [dictSet, List.lookup, hb]
    · cases hbb : k' == k0 <;> simp [dictSet, h0, List.lookup, hbb, ih]

theorem dictGetD_dictSet_self {α : Type} (l : List (String × α)) (k : String) (v d : α) :
    dictGetD (dictSet l k v) k d = v := by
  simp [dictGetD, lookup_dictSet_self]

theorem dictGetD_dictSet_ne {α : Type} (l : List (String × α)) (k k' : String) (v d : α)
    (h : k' ≠ k) : dictGetD (dictSet l k v) k' d = dictGetD l k' d := by
  simp [dictGetD, lookup_dictSet_ne l k k' v h]

theorem increment_count_getD (k : String) (s : ErrorHandler.HandlerState) :
    dictGetD (ErrorHandler.increment_count k s).error_counts k 0 =
      dictGetD s.error_counts k 0 + 1 := by
  simp [ErrorHandler.increment_count, dictGetD_dictSet_self]

theorem increment_count_active (k : String) (s : ErrorHandler.HandlerState) :
    (ErrorHandler.increment_count k s).active_recoveries = s.active_recoveries := rfl

theorem increment_count_procs (k : String) (s : ErrorHandler.HandlerState) :
    (ErrorHandler.increment_count k s).recovery_procedures = s.recovery_procedures := rfl

theorem should_attempt_increment (now : Nat) (k k' : String) (s : ErrorHandler.HandlerState) :
    ErrorHandler.should_attempt_recovery now k (ErrorHandler.increment_count k' s) =
      ErrorHandler.should_attempt_recovery now k s := rfl

theorem should_attempt_recovery_iff (now : Nat) (k : String) (s : ErrorHandler.HandlerState) :
    ErrorHandler.should_attempt_recovery now k s = true ↔
      ((s.recovery_procedures.lookup k).isSome = true ∧
       (s.active_recoveries.lookup k = none ∨
        ∃ t, s.active_recoveries.lookup k = some t ∧ 300 ≤ now - t)) := by
  unfold ErrorHandler.should_attempt_recovery
  cases hp : s.recovery_procedures.lookup k with
  | none => simp [hp]
  | some p =>
    cases ha : s.active_recoveries.lookup k with
    | none => simp [ha]
    | some t =>
      by_cases hc : now - t < 300
      · simp [ha, hc, Nat.not_le.mpr hc]
      · simp [ha, hc, Nat.not_lt.mp hc]

theorem handle_error_no_attempt_spec (now : Nat) (k : String) (s : ErrorHandler.HandlerState)
    (h : ErrorHandler.should_attempt_recovery now k s = false) :
    ErrorHandler.handle_error now k s =
      (true, ErrorHandler.increment_count k s,
        if ErrorHandler.should_escalate k (ErrorHandler.increment_count k s) then
          [ErrorHandler.Event.logged, ErrorHandler.Event.escalate]
        else [ErrorHandler.Event.logged]) := by
  have h1 : ErrorHandler.should_attempt_recovery now k (ErrorHandler.increment_count k s) =
      false := h
  cases he : ErrorHandler.should_escalate k (ErrorHandler.increment_count k s) <;>
    simp [ErrorHandler.handle_error, h1, he]

theorem handle_error_attempt_spec (now : Nat) (k : String) (s : ErrorHandler.HandlerState)
    (p : ErrorHandler.RecProc)
    (hp : s.recovery_procedures.lookup k = some p)
    (h : ErrorHandler.should_attempt_recovery now k s = true) :
    (ErrorHandler.handle_error now k s).2.1.active_recoveries =
        dictSet s.active_recoveries k now ∧
    (ErrorHandler.handle_error now k s).2.1.recovery_procedures = s.recovery_procedures ∧
    (∃ rest, (ErrorHandler.handle_error now k s).2.2 =
        ErrorHandler.Event.logged :: ErrorHandler.Event.set_last_recovery k now ::
          ErrorHandler.Event.invoke_procedure k :: rest) ∧
    (ErrorHandler.handle_error now k s).1 = decide (p now = ErrorHandler.ProcResult.success) ∧
    (p now = ErrorHandler.ProcResult.success →
        dictGetD (ErrorHandler.handle_error now k s).2.1.error_counts k 0 = 0) ∧
    (p now ≠ ErrorHandler.ProcResult.success →
        dictGetD (ErrorHandler.handle_error now k s).2.1.error_counts k 0 =
          dictGetD s.error_counts k 0 + 1) := by
  have h1 : ErrorHandler.should_attempt_recovery now k (ErrorHandler.increment_count k s) =
      true := h
  cases hpr : p now with
  | success =>
    simp [ErrorHandler.handle_error, h1, ErrorHandler.attempt_recovery,
      ErrorHandler.attempt_recovery_run, increment_count_procs, hp, hpr,
      increment_count_active, dictGetD_dictSet_self]
  | failure =>
    simp [ErrorHandler.handle_error, h1, ErrorHandler.attempt_recovery,
      ErrorHandler.attempt_recovery_run, increment_count_procs, hp, hpr,
      increment_count_active, increment_count_getD]
  | raises =>
    simp [ErrorHandler.handle_error, h1, ErrorHandler.attempt_recovery,
      ErrorHandler.attempt_recovery_run, increment_count_procs, hp, hpr,
      increment_count_active, increment_count_getD]

/-- Claim C1: on a report of kind k at time now, the registered recovery
procedure is invoked iff one is registered for k and the last recorded
attempt is unset or at least the 300 second cooldown old; when it is
invoked, the attempt time is recorded strictly before the invocation (the
trace places set_last_recovery before invoke_procedure) and equals now
afterwards, so a second report of kind k within the cooldown window never
invokes the procedure again. -/
theorem c1_recovery_cooldown (now : Nat) (k : String) (s : ErrorHandler.HandlerState) :
    (ErrorHandler.Event.invoke_procedure k ∈ (ErrorHandler.handle_error now k s).2.2 ↔
      ((s.recovery_procedures.lookup k).isSome = true ∧
       (s.active_recoveries.lookup k = none ∨
        ∃ t, s.active_recoveries.lookup k = some t ∧ 300 ≤ now - t))) ∧
    (ErrorHandler.Event.invoke_procedure k ∈ (ErrorHandler.handle_error now k s).2.2 →
      ((ErrorHandler.handle_error now k s).2.1.active_recoveries.lookup k = some now ∧
       (∃ rest, (ErrorHandler.handle_error now k s).2.2 =
          ErrorHandler.Event.logged :: ErrorHandler.Event.set_last_recovery k now ::
            ErrorHandler.Event.invoke_procedure k :: rest) ∧
       ∀ t2, t2 - now < 300 →
         ErrorHandler.Event.invoke_procedure k ∉
           (ErrorHandler.handle_error t2 k (ErrorHandler.handle_error now k s).2.1).2.2)) := by
  by_cases h : ErrorHandler.should_attempt_recovery now k s = true
  · obtain ⟨hsome, _⟩ := (should_attempt_recovery_iff now k s).mp h
    obtain ⟨p, hp⟩ := Option.isSome_iff_exists.mp hsome
    obtain ⟨hact, hproc, ⟨rest, htr⟩, _, _, _⟩ := handle_error_attempt_spec now k s p hp h
    constructor
    · constructor
      · intro _
        exact (should_attempt_recovery_iff now k s).mp h
      · intro _
        rw [htr]
        simp
    · intro _
      refine ⟨?_, ⟨rest, htr⟩, ?_⟩
      · rw [hact]
        exact lookup_dictSet_self _ _ _
      · intro t2 hc
        have hs2 : ErrorHandler.should_attempt_recovery t2 k
            (ErrorHandler.handle_error now k s).2.1 = false := by
          unfold ErrorHandler.should_attempt_recovery
          rw [hproc, hp, hact, lookup_dictSet_self]
          simp [hc]
        rw [handle_error_no_attempt_spec t2 k _ hs2]
        cases he : ErrorHandler.should_escalate k
            (ErrorHandler.increment_count k (ErrorHandler.handle_error now k s).2.1) <;>
          simp [he]
  · have hb : ErrorHandler.should_attempt_recovery now k s = false := by
      cases hx : ErrorHandler.should_attempt_recovery now k s
      · rfl
      · exact absurd hx h
    rw [handle_error_no_attempt_spec now k s hb]
    have hnmem : ErrorHandler.Event.invoke_procedure k ∉
        (if ErrorHandler.should_escalate k (ErrorHandler.increment_count k s) then
          [ErrorHandler.Event.logged, ErrorHandler.Event.escalate]
        else [ErrorHandler.Event.logged]) := by
      cases he : ErrorHandler.should_escalate k (ErrorHandler.increment_count k s) <;> simp [he]
    constructor
    · constructor
      · intro hmem
        exact absurd hmem hnmem
      · intro hrhs
        exact absurd ((should_attempt_recovery_iff now k s).mpr hrhs) h
    · intro hmem
      exact absurd hmem hnmem

/-- Witness for C1: with a procedure registered for DBError and no prior
attempt, a report at time 1000 invokes the procedure and records the time;
a second report at time 1100, inside the cooldown window, does not invoke
it again. -/
theorem c1_recovery_cooldown_witness :
    ErrorHandler.Event.invoke_procedure "DBError" ∈
        (ErrorHandler.handle_error 1000 "DBError" c1state).2.2 ∧
    (ErrorHandler.handle_error 1000 "DBError" c1state).2.1.active_recoveries.lookup "DBError" =
        some 1000 ∧
    ErrorHandler.Event.invoke_procedure "DBError" ∉
        (ErrorHandler.handle_error 1100 "DBError"
          (ErrorHandler.handle_error 1000 "DBError" c1state).2.1).2.2 := by
  have h := c1_recovery_cooldown 1000 "DBError" c1state
  have hin : ErrorHandler.Event.invoke_procedure "DBError" ∈
      (ErrorHandler.handle_error 1000 "DBError" c1state).2.2 :=
    h.1.mpr ⟨by decide, Or.inl rfl⟩
  have h2 := h.2 hin
  exact ⟨hin, h2.1, h2.2.2 1100 (by decide)⟩

/-- Claim C2: when no recovery is attempted for a report of kind k, the
escalation event fires iff the incremented per-kind count has reached the
severity threshold derived from the kind name (critical substring 1, error
substring 5, otherwise 10); escalation leaves the count at its incremented
value, and a later report with no recovery attempted escalates again. -/
theorem c2_escalation_threshold (now t2 : Nat) (k : String) (s : ErrorHandler.HandlerState)
    (h : ErrorHandler.should_attempt_recovery now k s = false) :
    (ErrorHandler.Event.escalate ∈ (ErrorHandler.handle_error now k s).2.2 ↔
       ErrorHandler.threshold_for k ≤ dictGetD s.error_counts k 0 + 1) ∧
    dictGetD (ErrorHandler.handle_error now k s).2.1.error_counts k 0 =
      dictGetD s.error_counts k 0 + 1 ∧
    (ErrorHandler.threshold_for k ≤ dictGetD s.error_counts k 0 + 1 →
       ErrorHandler.should_attempt_recovery t2 k (ErrorHandler.handle_error now k s).2.1 =
         false →
       ErrorHandler.Event.escalate ∈
         (ErrorHandler.handle_error t2 k (ErrorHandler.handle_error now k s).2.1).2.2) := by
  rw [handle_error_no_attempt_spec now k s h]
  have hesc : ErrorHandler.should_escalate k (ErrorHandler.increment_count k s) =
      decide (ErrorHandler.threshold_for k ≤ dictGetD s.error_counts k 0 + 1) := by
    simp [ErrorHandler.should_escalate, increment_count_getD, ge_iff_le]
  refine ⟨?_, ?_, ?_⟩
  · by_cases hth : ErrorHandler.threshold_for k ≤ dictGetD s.error_counts k 0 + 1
    · simp [hesc, hth]
    · simp [hesc, hth]
  · exact increment_count_getD k s
  · intro hth h2
    rw [handle_error_no_attempt_spec t2 k _ h2]
    have hesc2 : ErrorHandler.should_escalate k
        (ErrorHandler.increment_count k
          (true, ErrorHandler.increment_count k s,
            if ErrorHandler.should_escalate k (ErrorHandler.increment_count k s) then
              [ErrorHandler.Event.logged, ErrorHandler.Event.escalate]
            else [ErrorHandler.Event.logged]).2.1) = true := by
      simp only [ErrorHandler.should_escalate, ge_iff_le]
      have hc2 : dictGetD (ErrorHandler.increment_count k
          (ErrorHandler.increment_count k s)).error_counts k 0 =
            dictGetD s.error_counts k 0 + 1 + 1 := by
        rw [increment_count_getD, increment_count_getD]
      simp only [hc2]
      simp only [decide_eq_true_eq]
      omega
    simp [hesc2]

/-- Witness for C2: with four prior ValueError occurrences and nothing
registered, the fifth report escalates. -/
theorem c2_escalation_threshold_witness :
    ErrorHandler.should_attempt_recovery 0 "ValueError" c2state = false ∧
    ErrorHandler.Event.escalate ∈ (ErrorHandler.handle_error 0 "ValueError" c2state).2.2 := by
  have h := c2_escalation_threshold 0 0 "ValueError" c2state (by decide)
  exact ⟨by decide, h.1.mpr (by decide)⟩

/-- Claim C3: when a recovery is attempted for kind k, a successful
procedure resets the count for k to 0; a procedure that returns failure or
raises leaves the count at its incremented value and yields a False result;
the raise is absorbed inside the recovery attempt (the unguarded run is an
Except.error) and report_error still returns normally. -/
theorem c3_recovery_outcome (now : Nat) (k : String) (s : ErrorHandler.HandlerState)
    (p : ErrorHandler.RecProc)
    (hp : s.recovery_procedures.lookup k = some p)
    (h : ErrorHandler.should_attempt_recovery now k s = true) :
    (p now = ErrorHandler.ProcResult.success →
       dictGetD (ErrorHandler.handle_error now k s).2.1.error_counts k 0 = 0 ∧
       (ErrorHandler.handle_error now k s).1 = true) ∧
    (p now = ErrorHandler.ProcResult.failure →
       dictGetD (ErrorHandler.handle_error now k s).2.1.error_counts k 0 =
         dictGetD s.error_counts k 0 + 1 ∧
       (ErrorHandler.handle_error now k s).1 = false) ∧
    (p now = ErrorHandler.ProcResult.raises →
       dictGetD (ErrorHandler.handle_error now k s).2.1.error_counts k 0 =
         dictGetD s.error_counts k 0 + 1 ∧
       (ErrorHandler.handle_error now k s).1 = false ∧
       (∃ e, ErrorHandler.attempt_recovery_run now k (ErrorHandler.increment_count k s) =
          Except.error e) ∧
       ErrorHandler.report_error false now k s = ErrorHandler.handle_error now k s) := by
  obtain ⟨_, _, _, hres, hsucc, hfail⟩ := handle_error_attempt_spec now k s p hp h
  refine ⟨?_, ?_, ?_⟩
  · intro hx
    refine ⟨hsucc hx, ?_⟩
    rw [hres, hx]
    simp
  · intro hx
    refine ⟨hfail (by simp [hx]), ?_⟩
    rw [hres, hx]
    simp
  · intro hx
    refine ⟨hfail (by simp [hx]), ?_, ?_, rfl⟩
    · rw [hres, hx]
      simp
    · simp [ErrorHandler.attempt_recovery_run, increment_count_procs, hp, hx]

/-- Witness for C3: a registered procedure for NetError that raises leaves
the incremented count in place and produces a False result. -/
theorem c3_recovery_outcome_witness :
    (ErrorHandler.handle_error 50 "NetError" c3state).1 = false ∧
    dictGetD (ErrorHandler.handle_error 50 "NetError" c3state).2.1.error_counts "NetError" 0 =
      2 := by
  have h := (c3_recovery_outcome 50 "NetError" c3state
      (fun _ => ErrorHandler.ProcResult.raises) rfl (by decide)).2.2 rfl
  refine ⟨h.2.1, ?_⟩
  rw [h.1]
  decide

/-- Claim C4: for every input and for every internal fault configuration,
report_error returns the result of the body when the body returns, maps a
raise inside the body to a plain False result, and the body itself only
raises on the injected logging fault; so the caller always receives a
boolean and never an exception. -/
theorem c4_report_error_total (log_fault : Bool) (now : Nat) (k : String)
    (s : ErrorHandler.HandlerState) :
    (∀ r, ErrorHandler.handle_error_run log_fault now k s = Except.ok r →
       ErrorHandler.report_error log_fault now k s = r) ∧
    (∀ s2, ErrorHandler.handle_error_run log_fault now k s = Except.error s2 →
       ErrorHandler.report_error log_fault now k s = (false, s2, [])) ∧
    (log_fault = false →
       ErrorHandler.handle_error_run log_fault now k s =
         Except.ok (ErrorHandler.handle_error now k s)) := by
  cases log_fault <;>
    simp [ErrorHandler.handle_error_run, ErrorHandler.report_error]

/-- Witness for C4 at a concrete input. -/
theorem c4_report_error_total_witness :
    ErrorHandler.report_error false 7 "ValueError" c4state =
      ErrorHandler.handle_error 7 "ValueError" c4state := by
  exact (c4_report_error_total false 7 "ValueError" c4state).1 _ rfl

theorem spike_foldl_all (l : List (String × Nat)) (acc : List ErrorHandler.Event)
    (hacc : acc.all ErrorHandler.is_spike_event = true) :
    (l.foldl
      (fun acc2 p =>
        if p.2 > 0 && ErrorHandler.detect_error_spike p.1 p.2 then
          acc2 ++ [ErrorHandler.Event.spike_detected p.1 p.2]
        else acc2) acc).all ErrorHandler.is_spike_event = true := by
  induction l generalizing acc with
  | nil => simpa using hacc
  | cons hd tl ih =>
    simp only [List.foldl_cons]
    by_cases h : hd.2 > 0 && ErrorHandler.detect_error_spike hd.1 hd.2
    · rw [if_pos h]
      exact ih _ (by simp [List.all_append, hacc, ErrorHandler.is_spike_event])
    · rw [if_neg h]
      exact ih _ hacc

/-- Claim C10: an iteration of the error-pattern monitor that runs at wall
clock hour 0, minute 0 clears every per-kind error count to 0, whatever the
previous counts were, and the iteration performs no recovery and no
escalation: its only possible events are spike reports.  A count can
therefore return to 0 with no successful recovery and no escalation. -/
theorem c10_midnight_reset (s : ErrorHandler.HandlerState) (k : String) :
    dictGetD (ErrorHandler.monitor_error_patterns_iteration 0 0 s).1.error_counts k 0 = 0 ∧
    (ErrorHandler.monitor_error_patterns_iteration 0 0 s).2.all
      ErrorHandler.is_spike_event = true := by
  constructor
  · simp [ErrorHandler.monitor_error_patterns_iteration, dictGetD, List.lookup]
  · simpa [ErrorHandler.monitor_error_patterns_iteration] using
      spike_foldl_all s.error_counts [] rfl

theorem flush_buffer_clears (sink_ok backup_ok : Bool) (st : LoggingSystem.SState) :
    (LoggingSystem.flush_buffer sink_ok backup_ok st).1.log_buffer = [] := by
  cases hb : st.log_buffer with
  | nil => cases sink_ok <;> cases backup_ok <;>
      simp [LoggingSystem.flush_buffer, LoggingSystem.write_to_backup_file, hb]
  | cons a l => cases sink_ok <;> cases backup_ok <;>
      simp [LoggingSystem.flush_buffer, LoggingSystem.write_to_backup_file, hb]

theorem flush_no_closed (sink_ok backup_ok : Bool) (st : LoggingSystem.SState) :
    LoggingSystem.LEvent.closed_connection ∉
      (LoggingSystem.flush_buffer sink_ok backup_ok st).2 := by
  cases hb : st.log_buffer <;> cases sink_ok <;> cases backup_ok <;>
    simp [LoggingSystem.flush_buffer, LoggingSystem.write_to_backup_file, hb]

/-- Claim C5 (amended): if the remote sink write fails during a flush of a
nonempty buffer and the backup-file append succeeds, every buffered entry
is appended to the backup file exactly once, the sink receives nothing and
the buffer is empty afterwards; the buffer is cleared whatever the sink and
backup outcomes, so a record survives only as far as the backup file is
writable. -/
theorem c5_flush_fallback (st : LoggingSystem.SState) (h : st.log_buffer ≠ []) :
    (LoggingSystem.flush_buffer false true st).1.backup_file =
        st.backup_file ++ st.log_buffer ∧
    (LoggingSystem.flush_buffer false true st).1.log_buffer = [] ∧
    (LoggingSystem.flush_buffer false true st).1.sink = st.sink ∧
    (∀ sink_ok backup_ok : Bool,
        (LoggingSystem.flush_buffer sink_ok backup_ok st).1.log_buffer = []) := by
  have he : st.log_buffer.isEmpty = false := by
    cases hb : st.log_buffer with
    | nil => exact absurd hb h
    | cons a l => rfl
  refine ⟨?_, ?_, ?_, ?_⟩
  · simp [LoggingSystem.flush_buffer, LoggingSystem.write_to_backup_file, he]
  · exact flush_buffer_clears false true st
  · simp [LoggingSystem.flush_buffer, LoggingSystem.write_to_backup_file, he]
  · intro sink_ok backup_ok
    exact flush_buffer_clears sink_ok backup_ok st

/-- Witness for the amended C5 at a concrete one-record buffer. -/
theorem c5_flush_fallback_witness :
    c5state.log_buffer ≠ [] ∧
    (LoggingSystem.flush_buffer false true c5state).1.backup_file = [sample_entry] ∧
    (LoggingSystem.flush_buffer false true c5state).1.log_buffer = [] := by
  have h := c5_flush_fallback c5state (by decide)
  refine ⟨by decide, ?_, h.2.1⟩
  rw [h.1]
  decide

/-- Counterexample to C5 as stated: when the backup append also fails the
batch is dropped: the buffered entry is appended to neither the backup file
nor the sink, yet the buffer is cleared, so the entry is lost. -/
theorem c5_counterexample :
    c5state.log_buffer = [sample_entry] ∧
    (LoggingSystem.flush_buffer false false c5state).1.backup_file = [] ∧
    (LoggingSystem.flush_buffer false false c5state).1.sink = [] ∧
    (LoggingSystem.flush_buffer false false c5state).1.log_buffer = [] ∧
    sample_entry ∉ (LoggingSystem.flush_buffer false false c5state).1.backup_file := by
  decide

theorem lstep_buffer_lt (st : LoggingSystem.SState) (op : LoggingSystem.LOp) :
    (LoggingSystem.lstep st op).log_buffer.length < LoggingSystem.buffer_size := by
  cases op with
  | publish now level message context so bo =>
    simp only [LoggingSystem.lstep, LoggingSystem.log]
    split
    · simp [flush_buffer_clears, LoggingSystem.buffer_size]
    · rename_i hc
      simp only [List.length_append, List.length_cons, List.length_nil] at hc ⊢
      simp only [LoggingSystem.buffer_size] at hc ⊢
      omega
  | timer so bo =>
    simp [LoggingSystem.lstep, LoggingSystem.process_log_buffer_iteration,
      flush_buffer_clears, LoggingSystem.buffer_size]

theorem lrun_buffer_lt (ops : List LoggingSystem.LOp) (st : LoggingSystem.SState)
    (h : st.log_buffer.length < LoggingSystem.buffer_size) :
    (LoggingSystem.lrun st ops).log_buffer.length < LoggingSystem.buffer_size := by
  induction ops generalizing st with
  | nil => simpa [LoggingSystem.lrun] using h
  | cons op rest ih =>
    have hstep := lstep_buffer_lt st op
    simpa [LoggingSystem.lrun] using ih (LoggingSystem.lstep st op) hstep

/-- Claim C6: log appends the entry to the buffer and flushes exactly when
the buffer length reaches the configured size 100, independently of the
timer; from any state below the limit, publishes and timer firings keep the
buffer below the limit; a timer firing always leaves the buffer empty, and
a timer flush of an empty buffer changes nothing and emits nothing. -/
theorem c6_publish_flush (now : Nat) (level message : String)
    (context : List (String × String)) (sink_ok backup_ok : Bool)
    (st : LoggingSystem.SState) (h : st.log_buffer.length < LoggingSystem.buffer_size) :
    ((LoggingSystem.log now level message context sink_ok backup_ok st).1.log_buffer =
        if st.log_buffer.length + 1 = LoggingSystem.buffer_size then []
        else st.log_buffer ++ [LoggingSystem.mk_log_entry now level message context]) ∧
    (∀ ops, (LoggingSystem.lrun st ops).log_buffer.length < LoggingSystem.buffer_size) ∧
    (∀ (so bo : Bool) (st2 : LoggingSystem.SState),
        (LoggingSystem.process_log_buffer_iteration so bo st2).1.log_buffer = []) ∧
    (∀ (so bo : Bool) (st2 : LoggingSystem.SState), st2.log_buffer = [] →
        LoggingSystem.process_log_buffer_iteration so bo st2 = (st2, [])) := by
  refine ⟨?_, fun ops => lrun_buffer_lt ops st h, ?_, ?_⟩
  · by_cases heq : st.log_buffer.length + 1 = LoggingSystem.buffer_size
    · have hge : st.log_buffer.length + 1 ≥ LoggingSystem.buffer_size := Nat.le_of_eq heq.symm
      simp [LoggingSystem.log, hge, heq, flush_buffer_clears]
    · have hlt : ¬ st.log_buffer.length + 1 ≥ LoggingSystem.buffer_size := by omega
      simp [LoggingSystem.log, hlt, heq]
  · intro so bo st2
    exact flush_buffer_clears so bo st2
  · intro so bo st2 h2
    simp [LoggingSystem.process_log_buffer_iteration, LoggingSystem.flush_buffer, h2]

/-- Witness for C6: a buffer of 99 records flushes on the hundredth
publish. -/
theorem c6_publish_flush_witness :
    c6state.log_buffer.length < LoggingSystem.buffer_size ∧
    (LoggingSystem.log 1 "warn" "full" [] true true c6state).1.log_buffer = [] := by
  have h : c6state.log_buffer.length < LoggingSystem.buffer_size := by
    simp [c6state, LoggingSystem.buffer_size]
  have h2 := (c6_publish_flush 1 "warn" "full" [] true true c6state h).1
  refine ⟨h, ?_⟩
  rw [h2]
  simp [c6state, LoggingSystem.buffer_size]

theorem rotation_range_list :
    (((List.range (LoggingSystem.backup_count - 1)).map (fun j => j + 1)).reverse) =
      [4, 3, 2, 1] := by decide

theorem backup_name_one : LoggingSystem.backup_name "app.log" 1 = "app.log.1" := rfl

theorem backup_name_two : LoggingSystem.backup_name "app.log" 2 = "app.log.2" := rfl

theorem backup_name_three : LoggingSystem.backup_name "app.log" 3 = "app.log.3" := rfl

theorem backup_name_four : LoggingSystem.backup_name "app.log" 4 = "app.log.4" := rfl

theorem backup_name_five : LoggingSystem.backup_name "app.log" 5 = "app.log.5" := rfl

theorem rotate_app_log (c b1 b2 b3 b4 b5 : String) :
    LoggingSystem.rotate_log_file "app.log"
        [("app.log", c), ("app.log.1", b1), ("app.log.2", b2), ("app.log.3", b3),
         ("app.log.4", b4), ("app.log.5", b5)] =
      [("app.log.5", b4), ("app.log.4", b3), ("app.log.3", b2), ("app.log.2", b1),
       ("app.log.1", c), ("app.log", "")] := by
  have h4 : (if (LoggingSystem.fsLookup
        [("app.log", c), ("app.log.1", b1), ("app.log.2", b2), ("app.log.3", b3),
         ("app.log.4", b4), ("app.log.5", b5)] "app.log.4").isSome then
      LoggingSystem.fsRename
        [("app.log", c), ("app.log.1", b1), ("app.log.2", b2), ("app.log.3", b3),
         ("app.log.4", b4), ("app.log.5", b5)] "app.log.4" "app.log.5"
    else
      [("app.log", c), ("app.log.1", b1), ("app.log.2", b2), ("app.log.3", b3),
       ("app.log.4", b4), ("app.log.5", b5)]) =
      [("app.log", c), ("app.log.1", b1), ("app.log.2", b2), ("app.log.3", b3),
       ("app.log.5", b4)] := by
    simp [LoggingSystem.fsRename, LoggingSystem.fsLookup, dictSet, List.lookup, List.filter]
  have h3 : (if (LoggingSystem.fsLookup
        [("app.log", c), ("app.log.1", b1), ("app.log.2", b2), ("app.log.3", b3),
         ("app.log.5", b4)] "app.log.3").isSome then
      LoggingSystem.fsRename
        [("app.log", c), ("app.log.1", b1), ("app.log.2", b2), ("app.log.3", b3),
         ("app.log.5", b4)] "app.log.3" "app.log.4"
    else
      [("app.log", c), ("app.log.1", b1), ("app.log.2", b2), ("app.log.3", b3),
       ("app.log.5", b4)]) =
      [("app.log", c), ("app.log.1", b1), ("app.log.2", b2), ("app.log.5", b4),
       ("app.log.4", b3)] := by
    simp [LoggingSystem.fsRename, LoggingSystem.fsLookup, dictSet, List.lookup, List.filter]
  have h2 : (if (LoggingSystem.fsLookup
        [("app.log", c), ("app.log.1", b1), ("app.log.2", b2), ("app.log.5", b4),
         ("app.log.4", b3)] "app.log.2").isSome then
      LoggingSystem.fsRename
        [("app.log", c), ("app.log.1", b1), ("app.log.2", b2), ("app.log.5", b4),
         ("app.log.4", b3)] "app.log.2" "app.log.3"
    else
      [("app.log", c), ("app.log.1", b1), ("app.log.2", b2), ("app.log.5", b4),
       ("app.log.4", b3)]) =
      [("app.log", c), ("app.log.1", b1), ("app.log.5", b4), ("app.log.4", b3),
       ("app.log.3", b2)] := by
    simp [LoggingSystem.fsRename, LoggingSystem.fsLookup, dictSet, List.lookup, List.filter]
  have h1 : (if (LoggingSystem.fsLookup
        [("app.log", c), ("app.log.1", b1), ("app.log.5", b4), ("app.log.4", b3),
         ("app.log.3", b2)] "app.log.1").isSome then
      LoggingSystem.fsRename
        [("app.log", c), ("app.log.1", b1), ("app.log.5", b4), ("app.log.4", b3),
         ("app.log.3", b2)] "app.log.1" "app.log.2"
    else
      [("app.log", c), ("app.log.1", b1), ("app.log.5", b4), ("app.log.4", b3),
       ("app.log.3", b2)]) =
      [("app.log", c), ("app.log.5", b4), ("app.log.4", b3), ("app.log.3", b2),
       ("app.log.2", b1)] := by
    simp [LoggingSystem.fsRename, LoggingSystem.fsLookup, dictSet, List.lookup, List.filter]
  have hcur : (if (LoggingSystem.fsLookup
        [("app.log", c), ("app.log.5", b4), ("app.log.4", b3), ("app.log.3", b2),
         ("app.log.2", b1)] "app.log").isSome then
      LoggingSystem.fsRename
        [("app.log", c), ("app.log.5", b4), ("app.log.4", b3), ("app.log.3", b2),
         ("app.log.2", b1)] "app.log" "app.log.1"
    else
      [("app.log", c), ("app.log.5", b4), ("app.log.4", b3), ("app.log.3", b2),
       ("app.log.2", b1)]) =
      [("app.log.5", b4), ("app.log.4", b3), ("app.log.3", b2), ("app.log.2", b1),
       ("app.log.1", c)] := by
    simp [LoggingSystem.fsRename, LoggingSystem.fsLookup, dictSet, List.lookup, List.filter]
  have htouch : LoggingSystem.fsTouch
      [("app.log.5", b4), ("app.log.4", b3), ("app.log.3", b2), ("app.log.2", b1),
       ("app.log.1", c)] "app.log" =
      [("app.log.5", b4), ("app.log.4", b3), ("app.log.3", b2), ("app.log.2", b1),
       ("app.log.1", c), ("app.log", "")] := by
    simp [LoggingSystem.fsTouch, dictSet, List.lookup]
  unfold LoggingSystem.rotate_log_file
  rw [rotation_range_list]
  simp only [List.foldl_cons, List.foldl_nil]
  rw [backup_name_four, backup_name_five, backup_name_three, backup_name_two,
    backup_name_one, h4, h3, h2, h1, hcur, htouch]

/-- Claim C8: rotating a log file whose size exceeds the 10MB limit, with
numbered backups 1 through 5 present, shifts each backup content up by one,
puts the previous current content in backup 1, drops the content of the
former backup 5, creates no backup 6 and leaves a fresh empty current
file. -/
theorem c8_rotation (sz : Nat) (c b1 b2 b3 b4 b5 : String)
    (h : LoggingSystem.max_log_size < sz) :
    LoggingSystem.monitor_log_file_step "app.log" sz
        [("app.log", c), ("app.log.1", b1), ("app.log.2", b2), ("app.log.3", b3),
         ("app.log.4", b4), ("app.log.5", b5)] =
      [("app.log.5", b4), ("app.log.4", b3), ("app.log.3", b2), ("app.log.2", b1),
       ("app.log.1", c), ("app.log", "")] ∧
    LoggingSystem.fsLookup
        (LoggingSystem.monitor_log_file_step "app.log" sz
          [("app.log", c), ("app.log.1", b1), ("app.log.2", b2), ("app.log.3", b3),
           ("app.log.4", b4), ("app.log.5", b5)]) "app.log.6" = none := by
  have hrw : LoggingSystem.monitor_log_file_step "app.log" sz
      [("app.log", c), ("app.log.1", b1), ("app.log.2", b2), ("app.log.3", b3),
       ("app.log.4", b4), ("app.log.5", b5)] =
      [("app.log.5", b4), ("app.log.4", b3), ("app.log.3", b2), ("app.log.2", b1),
       ("app.log.1", c), ("app.log", "")] := by
    unfold LoggingSystem.monitor_log_file_step
    rw [if_pos h]
    exact rotate_app_log c b1 b2 b3 b4 b5
  refine ⟨hrw, ?_⟩
  rw [hrw]
  simp [LoggingSystem.fsLookup, List.lookup]

/-- Witness for C8 at concrete sizes and contents. -/
theorem c8_rotation_witness :
    LoggingSystem.max_log_size < 10485761 ∧
    LoggingSystem.monitor_log_file_step "app.log" 10485761 c8fs =
      [("app.log.5", "b4"), ("app.log.4", "b3"), ("app.log.3", "b2"), ("app.log.2", "b1"),
       ("app.log.1", "cur"), ("app.log", "")] := by
  refine ⟨by decide, ?_⟩
  exact (c8_rotation 10485761 "cur" "b1" "b2" "b3" "b4" "b5" (by decide)).1

/-- Claim C9 (amended): shutdown empties the buffer before releasing the
sink connection and before returning, delivering the batch to the remote
sink when it is reachable and otherwise appending it to the backup file
when that append succeeds; the connection release is the last event; the
guard of the buffer-processing loop consults no shutdown signal, so the
loops are not made to exit. -/
theorem c9_shutdown (sink_ok backup_ok : Bool) (st : LoggingSystem.SState) :
    (LoggingSystem.shutdown sink_ok backup_ok st).1.log_buffer = [] ∧
    (LoggingSystem.shutdown sink_ok backup_ok st).1.es_connected = false ∧
    (∃ pre, (LoggingSystem.shutdown sink_ok backup_ok st).2 =
        pre ++ [LoggingSystem.LEvent.closed_connection] ∧
      LoggingSystem.LEvent.closed_connection ∉ pre) ∧
    (sink_ok = true →
        (LoggingSystem.shutdown sink_ok backup_ok st).1.sink = st.sink ++ st.log_buffer) ∧
    (sink_ok = false → backup_ok = true →
        (LoggingSystem.shutdown sink_ok backup_ok st).1.backup_file =
          st.backup_file ++ st.log_buffer) ∧
    (∀ st2 : LoggingSystem.SState, LoggingSystem.process_log_buffer_continues st2 = true) := by
  refine ⟨flush_buffer_clears sink_ok backup_ok st, rfl,
    ⟨(LoggingSystem.flush_buffer sink_ok backup_ok st).2, rfl,
      flush_no_closed sink_ok backup_ok st⟩, ?_, ?_, fun _ => rfl⟩
  · intro hs
    subst hs
    cases hb : st.log_buffer with
    | nil => simp [LoggingSystem.shutdown, LoggingSystem.flush_buffer, hb]
    | cons a l => simp [LoggingSystem.shutdown, LoggingSystem.flush_buffer, hb]
  · intro hs hbk
    subst hs
    subst hbk
    cases hb : st.log_buffer with
    | nil =>
      simp [LoggingSystem.shutdown, LoggingSystem.flush_buffer,
        LoggingSystem.write_to_backup_file, hb]
    | cons a l =>
      simp [LoggingSystem.shutdown, LoggingSystem.flush_buffer,
        LoggingSystem.write_to_backup_file, hb]

/-- Witness for the amended C9 at a concrete one-record buffer with the
sink unreachable. -/
theorem c9_shutdown_witness :
    (LoggingSystem.shutdown false true c9state).1.log_buffer = [] ∧
    (LoggingSystem.shutdown false true c9state).1.backup_file =
      c9state.backup_file ++ c9state.log_buffer := by
  have h := c9_shutdown false true c9state
  exact ⟨h.1, h.2.2.2.2.1 rfl rfl⟩

/-- Counterexample to C9 as stated: after shutdown the guard of the
buffer-processing loop still evaluates to true, because the loop consults
no shutdown signal, so shutdown does not cause the loops to exit; and when
both the sink and the backup file are unavailable the non-empty buffer is
flushed to neither sink. -/
theorem c9_counterexample :
    LoggingSystem.process_log_buffer_continues (LoggingSystem.shutdown true true c9state).1 =
      true ∧
    (LoggingSystem.shutdown false false c9state).1.backup_file = [] ∧
    (LoggingSystem.shutdown false false c9state).1.sink = [] ∧
    c9state.log_buffer ≠ [] := by
  decide

theorem count_failures_append (name : String) (l1 l2 : List SupervisorAgent.SEvent) :
    SupervisorAgent.count_failures name (l1 ++ l2) =
      SupervisorAgent.count_failures name l1 + SupervisorAgent.count_failures name l2 := by
  induction l1 with
  | nil => simp [SupervisorAgent.count_failures]
  | cons e rest ih =>
    cases e <;> simp [SupervisorAgent.count_failures, ih, Nat.add_assoc]

theorem count_failures_check_self (now : Nat) (hook : String → Bool) (name : String)
    (h : SupervisorAgent.AgentHealth) :
    SupervisorAgent.count_failures name (SupervisorAgent.check_agent now hook (name, h)) =
      (match h.last_heartbeat with
       | some t => if 60 < SupervisorAgent.elapsed_seconds_component now t then 1 else 0
       | none => 0) := by
  cases hb : h.last_heartbeat with
  | none => simp [SupervisorAgent.check_agent, hb, SupervisorAgent.count_failures]
  | some t =>
    by_cases hc : 60 < SupervisorAgent.elapsed_seconds_component now t
    · cases hh : hook name <;>
        simp [SupervisorAgent.check_agent, hb, hc, SupervisorAgent.handle_agent_failure,
          SupervisorAgent.recover_agent, hh, SupervisorAgent.count_failures,
          count_failures_append]
    · simp [SupervisorAgent.check_agent, hb, hc, SupervisorAgent.count_failures]

theorem count_failures_check_ne (now : Nat) (hook : String → Bool) (name n : String)
    (h : SupervisorAgent.AgentHealth) (hne : n ≠ name) :
    SupervisorAgent.count_failures name (SupervisorAgent.check_agent now hook (n, h)) = 0 := by
  have hbeq : (n == name) = false := by simp [hne]
  cases hb : h.last_heartbeat with
  | none => simp [SupervisorAgent.check_agent, hb, SupervisorAgent.count_failures]
  | some t =>
    by_cases hc : 60 < SupervisorAgent.elapsed_seconds_component now t
    · cases hh : hook n <;>
        simp [SupervisorAgent.check_agent, hb, hc, SupervisorAgent.handle_agent_failure,
          SupervisorAgent.recover_agent, hh, SupervisorAgent.count_failures,
          count_failures_append, hbeq]
    · simp [SupervisorAgent.check_agent, hb, hc, SupervisorAgent.count_failures]

theorem count_failures_monitor_not_mem (now : Nat) (hook : String → Bool) (name : String)
    (agents : List (String × SupervisorAgent.AgentHealth))
    (hnm : name ∉ agents.map Prod.fst) :
    SupervisorAgent.count_failures name (SupervisorAgent.monitor_events now hook agents) =
      0 := by
  induction agents with
  | nil => rfl
  | cons p rest ih =>
    obtain ⟨n, h⟩ := p
    simp only [List.map_cons, List.mem_cons] at hnm
    push_neg at hnm
    obtain ⟨h1, h2⟩ := hnm
    rw [SupervisorAgent.monitor_events, count_failures_append,
      count_failures_check_ne now hook name n h (Ne.symm h1), ih h2]

/-- Claim C7 (amended): one iteration of the health-monitor loop leaves the
health table untouched (in particular no status is ever set to failed), and
it invokes failure handling for an agent exactly once in the iteration
exactly when the agent has a recorded heartbeat whose age, taken modulo one
day as the Python timedelta seconds attribute does, exceeds 60 seconds; an
agent with no recorded heartbeat never triggers failure handling. -/
theorem c7_health_monitor (now : Nat) (hook : String → Bool)
    (agents : List (String × SupervisorAgent.AgentHealth)) (name : String)
    (h : SupervisorAgent.AgentHealth)
    (hnd : (agents.map Prod.fst).Nodup) (hmem : (name, h) ∈ agents) :
    (SupervisorAgent.monitor_agent_health_iteration now hook agents).1 = agents ∧
    SupervisorAgent.count_failures name
        (SupervisorAgent.monitor_agent_health_iteration now hook agents).2 =
      (match h.last_heartbeat with
       | some t => if 60 < SupervisorAgent.elapsed_seconds_component now t then 1 else 0
       | none => 0) := by
  refine ⟨rfl, ?_⟩
  simp only [SupervisorAgent.monitor_agent_health_iteration]
  induction agents with
  | nil => cases hmem
  | cons p rest ih =>
    rcases List.mem_cons.mp hmem with heq | hmem2
    · subst heq
      simp only [List.map_cons] at hnd
      have hnm : name ∉ rest.map Prod.fst := (List.nodup_cons.mp hnd).1
      rw [SupervisorAgent.monitor_events, count_failures_append,
        count_failures_check_self, count_failures_monitor_not_mem now hook name rest hnm]
      simp
    · obtain ⟨n0, h0⟩ := p
      simp only [List.map_cons] at hnd
      have hn0nm : n0 ∉ rest.map Prod.fst := (List.nodup_cons.mp hnd).1
      have hn0 : n0 ≠ name := by
        intro he
        subst he
        exact hn0nm (List.mem_map_of_mem Prod.fst hmem2)
      rw [SupervisorAgent.monitor_events, count_failures_append,
        count_failures_check_ne now hook name n0 h0 hn0,
        ih (List.nodup_cons.mp hnd).2 hmem2]
      simp

/-- Witness for the amended C7: an agent whose heartbeat is 61 seconds old
triggers exactly one failure handling in the detection cycle. -/
theorem c7_health_monitor_witness :
    SupervisorAgent.count_failures "validation"
        (SupervisorAgent.monitor_agent_health_iteration 61 (fun _ => true) c7agents).2 = 1 := by
  have h := c7_health_monitor 61 (fun _ => true) c7agents "validation"
    ⟨"active", some 0, 0⟩ (by decide) (by decide)
  exact h.2.trans (by decide)

/-- Counterexample to C7 as stated: at time 61 the stale agent triggers
failure handling, but its stored status is left at active, never set to
failed; and at time 86410, one day and ten seconds after the heartbeat,
the elapsed time exceeds 60 seconds yet no failure handling is invoked,
because the code reads the timedelta seconds component, which wraps at one
day. -/
theorem c7_counterexample :
    SupervisorAgent.SEvent.agent_failure "validation" ∈
        (SupervisorAgent.monitor_agent_health_iteration 61 (fun _ => true) c7agents).2 ∧
    ((SupervisorAgent.monitor_agent_health_iteration 61 (fun _ => true) c7agents).1.lookup
        "validation").map SupervisorAgent.AgentHealth.status = some "active" ∧
    "active" ≠ "failed" ∧
    60 < 86410 - 0 ∧
    SupervisorAgent.count_failures "validation"
        (SupervisorAgent.monitor_agent_health_iteration 86410 (fun _ => true) c7agents).2 =
      0 := by
  decide
